import Mathlib

set_option maxRecDepth 40000

/-!
Verification of the SEO content engine of the `ai-blog-gen` repository.

The JavaScript services under `ai-blog-platform-backend/services` are shallowly
embedded here: JS strings become `List Char` (or `String` at the API surface),
numbers become `Nat`, `Int` or `Rat` as appropriate, JS objects become
structures or association lists, and every call to an external collaborator
(the Gemini HTTP gateway, the WordPress REST API, `Math.random`, the system
clock) is modelled by an explicit input parameter.  All definitions are
executable so that concrete runs of the embedded code can be evaluated inside
proofs by `decide` or `rfl`.
-/

/-! ## Basic JavaScript string primitives -/

/-- ASCII model of `String.prototype.toLowerCase` for a single character. -/
def jsToLowerChar (c : Char) : Char :=
  if 65 ≤ c.toNat ∧ c.toNat ≤ 90 then Char.ofNat (c.toNat + 32) else c

/-- ASCII model of `String.prototype.toUpperCase` for a single character. -/
def jsToUpperChar (c : Char) : Char :=
  if 97 ≤ c.toNat ∧ c.toNat ≤ 122 then Char.ofNat (c.toNat - 32) else c

/-- Model of `s.toLowerCase()`. -/
def jsToLower (l : List Char) : List Char := l.map jsToLowerChar

/-- Characters matched by the regex class `\s` (the ASCII ones). -/
def isJsWhitespace (c : Char) : Bool :=
  c = ' ' || c = '\t' || c = '\n' || c = '\x0d' || c = '\x0b' || c = '\x0c'

/-- Model of `hay.includes(needle)` on JS strings. -/
def jsIncludes (hay needle : List Char) : Bool :=
  match hay with
  | [] => needle.isEmpty
  | _ :: t => needle.isPrefixOf hay || jsIncludes t needle

/-- Model of `s.split(' ')`: fields between single-space separators, empty
fields kept, so the number of fields is the number of spaces plus one. -/
def jsSplitSpace (l : List Char) : List (List Char) := List.splitOn ' ' l

/-- Model of `arr.join(' ')`. -/
def joinSpace (ls : List (List Char)) : List Char := List.intercalate [' '] ls

/-- Model of the JS truthiness idiom `value || default` on an optional string
(`undefined` and the empty string are both falsy). -/
def jsOrStr (v : Option String) (d : String) : String :=
  match v with
  | some s => if s = "" then d else s
  | none => d

/-- Model of `keyword.charAt(0).toUpperCase() + keyword.slice(1)`. -/
def capitalizeFirst (s : String) : String :=
  match s.toList with
  | [] => s
  | c :: cs => (jsToUpperChar c :: cs).asString

/-- Model of `Math.round` on a (non-negative) JS number, computed exactly. -/
def jsRound (q : ℚ) : ℤ := ⌊q + 1/2⌋

/-- Auxiliary scan for `countKeywordOccurrences`: leftmost, non-overlapping
matches of the (non-empty) literal pattern `kw`, exactly as the global regex
scan in the source does.  The second argument counts characters of the
current match still to be skipped, which keeps the recursion structural. -/
def countOccsAux (kw : List Char) : List Char → Nat → Nat
  | [], _ => 0
  | _ :: t, n + 1 => countOccsAux kw t n
  | c :: t, 0 =>
    if kw.isPrefixOf (c :: t) then 1 + countOccsAux kw t (kw.length - 1)
    else countOccsAux kw t 0

/-- Model of `countKeywordOccurrences` (services/seoOptimizationService.js):
`content.match(new RegExp(escapedKeyword, 'gi'))` counted; the `i` flag is
modelled by lowercasing both sides at the call sites.  An empty pattern
matches once at every position including the end of the string, as the JS
regex does. -/
def countOccs (content kw : List Char) : Nat :=
  if kw.isEmpty then content.length + 1 else countOccsAux kw content 0

/-! ## The slug pipeline (`generateSEOSlug`, identical in
`seoOptimizationService.js` and `wordpressService.js`) -/

/-- Characters kept by `.replace(/[^a-z0-9\s-]/g, '')`. -/
def isSlugKeep (c : Char) : Bool :=
  (97 ≤ c.toNat && c.toNat ≤ 122) || (48 ≤ c.toNat && c.toNat ≤ 57)
    || isJsWhitespace c || c = '-'

/-- State machine for `.replace(/X+/g, rep)`: `inRun` records whether the
previous character belonged to a run of `p`-characters, so each maximal run
emits exactly one `rep`. -/
def collapseRunsAux (p : Char → Bool) (rep : Char) (inRun : Bool) : List Char → List Char
  | [] => []
  | c :: t =>
    if p c then
      (if inRun then [] else [rep]) ++ collapseRunsAux p rep true t
    else c :: collapseRunsAux p rep false t

/-- Model of `.replace(/X+/g, rep)` for a character class `p`: every maximal
run of `p`-characters is replaced by the single character `rep`. -/
def collapseRuns (p : Char → Bool) (rep : Char) (l : List Char) : List Char :=
  collapseRunsAux p rep false l

/-- Model of `.replace(/^-|-$/g, '')`: the global regex removes at most one
leading and at most one trailing hyphen (the anchors cannot re-match). -/
def stripEdgeHyphens (l : List Char) : List Char :=
  let l1 := if l.head? = some '-' then l.tail else l
  if l1.getLast? = some '-' then l1.dropLast else l1

/-- Model of `generateSEOSlug` (lines 528-536 of seoOptimizationService.js and
lines 547-555 of wordpressService.js): lowercase, strip characters outside
`[a-z0-9\s-]`, turn whitespace runs into hyphens, collapse hyphen runs,
strip edge hyphens, truncate to 50 characters. -/
def generateSEOSlug (l : List Char) : List Char :=
  (stripEdgeHyphens
    (collapseRuns (fun c => c = '-') '-'
      (collapseRuns isJsWhitespace '-'
        ((jsToLower l).filter isSlugKeep)))).take 50

/-- String-level wrapper of `generateSEOSlug`. -/
def generateSEOSlugStr (s : String) : String := (generateSEOSlug s.toList).asString

/-! ## Word-budget planner (`generateKeywordOptimizedStructure`)

The repository contains two revisions of this function.  The first (enhanced)
revision at lines 120-173 allocates 10% to the introduction, 20% to each of
the four body sections and 12% to the conclusion; the second (base) revision
at lines 659-700 allocates 8%, 18% each and 10%.  `Math.round` is modelled
exactly on rationals by `jsRound`. -/

structure IntroPlan where
  wordCount : ℤ
  keywordRequirement : String
  purpose : String
deriving Repr, DecidableEq

structure SectionPlanned where
  heading : String
  wordCount : ℤ
  keywordRequirement : String
  purpose : String
deriving Repr, DecidableEq

structure ContentStructure where
  introduction : IntroPlan
  mainSections : List SectionPlanned
  conclusion : SectionPlanned
deriving Repr, DecidableEq

/-- Enhanced revision of `generateKeywordOptimizedStructure`
(seoOptimizationService.js lines 120-173); the style-instruction string
fields are omitted, the word-count arithmetic is exact. -/
def generateKeywordOptimizedStructureEnhanced (keyword : String) (targetWordCount : ℕ) :
    ContentStructure :=
  { introduction :=
      { wordCount := jsRound ((targetWordCount : ℚ) * (10/100))
        keywordRequirement := "Must include focus keyword in first 50 words (CRITICAL for RankMath)"
        purpose := "Hook reader, establish keyword relevance, and preview article value" }
    mainSections :=
      [ { heading := "Understanding " ++ keyword ++ ": Complete Overview"
          wordCount := jsRound ((targetWordCount : ℚ) * (20/100))
          keywordRequirement := "Include exact keyword phrase 2-3 times naturally in first paragraph"
          purpose := "Define and explain the main topic comprehensively" }
      , { heading := keyword ++ ": Key Benefits and Advantages"
          wordCount := jsRound ((targetWordCount : ℚ) * (20/100))
          keywordRequirement := "Include keyword variations and related terms"
          purpose := "Highlight advantages and value proposition with specific examples" }
      , { heading := "How " ++ keyword ++ " Implementation Works"
          wordCount := jsRound ((targetWordCount : ℚ) * (20/100))
          keywordRequirement := "Include keyword in process descriptions and subheadings"
          purpose := "Explain detailed process and methodology with actionable steps" }
      , { heading := keyword ++ " Cost Analysis and ROI Considerations"
          wordCount := jsRound ((targetWordCount : ℚ) * (20/100))
          keywordRequirement := "Include keyword with cost-related and financial terms"
          purpose := "Address comprehensive financial considerations and ROI" } ]
    conclusion :=
      { heading := keyword ++ ": Making the Right Choice for Your Project"
        wordCount := jsRound ((targetWordCount : ℚ) * (12/100))
        keywordRequirement := "Include exact keyword phrase and strong call-to-action language"
        purpose := "Summarize key points, reinforce benefits, and encourage immediate action" } }

/-- Base revision of `generateKeywordOptimizedStructure`
(seoOptimizationService.js lines 659-700). -/
def generateKeywordOptimizedStructureBase (keyword : String) (targetWordCount : ℕ) :
    ContentStructure :=
  { introduction :=
      { wordCount := jsRound ((targetWordCount : ℚ) * (8/100))
        keywordRequirement := "Must include focus keyword in first 100 words"
        purpose := "Hook reader and establish keyword relevance" }
    mainSections :=
      [ { heading := "What is " ++ keyword ++ "?"
          wordCount := jsRound ((targetWordCount : ℚ) * (18/100))
          keywordRequirement := "Include keyword 2-3 times naturally"
          purpose := "Define and explain the main topic" }
      , { heading := "Benefits of " ++ keyword
          wordCount := jsRound ((targetWordCount : ℚ) * (18/100))
          keywordRequirement := "Include keyword variations"
          purpose := "Highlight advantages and value proposition" }
      , { heading := "How " ++ keyword ++ " Works"
          wordCount := jsRound ((targetWordCount : ℚ) * (18/100))
          keywordRequirement := "Include keyword in subheadings"
          purpose := "Explain process and methodology" }
      , { heading := keyword ++ " Cost and ROI"
          wordCount := jsRound ((targetWordCount : ℚ) * (18/100))
          keywordRequirement := "Include keyword with cost-related terms"
          purpose := "Address financial considerations" } ]
    conclusion :=
      { heading := ""
        wordCount := jsRound ((targetWordCount : ℚ) * (10/100))
        keywordRequirement := "Include keyword and call-to-action"
        purpose := "Summarize and encourage action" } }

/-- Total of the planned per-section word counts (introduction, body
sections, conclusion). -/
def plannedWordTotal (s : ContentStructure) : ℤ :=
  s.introduction.wordCount + (s.mainSections.map SectionPlanned.wordCount).sum
    + s.conclusion.wordCount

/-! ## SEO compliance scorer (`validateSEOCompliance`)

Both revisions are embedded: the canonical 10-rule revision
(seoOptimizationService.js lines 779-879) as `validateSEOCompliance` and the
enhanced 13-rule revision (lines 363-514) as `validateSEOComplianceEnhanced`. -/

structure MetaData where
  h1 : List Char
  metaTitle : List Char
  metaDescription : List Char
  slug : List Char
deriving Repr, DecidableEq

structure ContentBlock where
  id : String
  type : String
  content : List Char
deriving Repr, DecidableEq

structure SEOValidation where
  score : Nat
  maxScore : Nat
  checks : List (String × Bool)
  recommendations : List String
  keywordDensity : ℚ
  wordCount : Nat
  keywordCount : Nat
deriving Repr, DecidableEq

/-- The `validation` object as initialised at the top of
`validateSEOCompliance` (the analysis fields are filled in at the end). -/
def initValidation : SEOValidation :=
  { score := 0, maxScore := 100, checks := [], recommendations := []
    keywordDensity := 0, wordCount := 0, keywordCount := 0 }

/-- One `if`-block of the scorer: on pass, add the weight and record the
check; on failure, push the recommendation. -/
def applyCheck (cond : Bool) (name : String) (weight : Nat) (recommendation : String)
    (v : SEOValidation) : SEOValidation :=
  if cond then
    { v with score := v.score + weight, checks := v.checks ++ [(name, true)] }
  else
    { v with recommendations := v.recommendations ++ [recommendation] }

/-- `allContent`: the paragraph blocks joined with single spaces. -/
def allParagraphContent (blocks : List ContentBlock) : List Char :=
  joinSpace ((blocks.filter (fun b => b.type == "paragraph")).map ContentBlock.content)

/-- `wordCount = allContent.split(' ').length`. -/
def contentWordCount (blocks : List ContentBlock) : Nat :=
  (jsSplitSpace (allParagraphContent blocks)).length

/-- `keywordCount = countKeywordOccurrences(allContent, keyword)`. -/
def contentKeywordCount (blocks : List ContentBlock) (kw : List Char) : Nat :=
  countOccs (jsToLower (allParagraphContent blocks)) (jsToLower kw)

/-- `keywordDensity = keywordCount / wordCount * 100` (the word count of a
split is always at least 1, so no division by zero arises). -/
def contentKeywordDensity (blocks : List ContentBlock) (kw : List Char) : ℚ :=
  ((contentKeywordCount blocks kw : ℚ) / (contentWordCount blocks : ℚ)) * 100

/-- Check 1: focus keyword in the H1 title (JS truthiness guard included). -/
def condKeywordInTitle (kw : List Char) (m : MetaData) : Bool :=
  !m.h1.isEmpty && jsIncludes (jsToLower m.h1) (jsToLower kw)

/-- Check 2: focus keyword in the meta description. -/
def condKeywordInMetaDescription (kw : List Char) (m : MetaData) : Bool :=
  !m.metaDescription.isEmpty && jsIncludes (jsToLower m.metaDescription) (jsToLower kw)

/-- Check 3: hyphenated lower-case keyword occurs in the slug. -/
def condKeywordInURL (kw : List Char) (m : MetaData) : Bool :=
  !m.slug.isEmpty && jsIncludes m.slug (collapseRuns isJsWhitespace '-' (jsToLower kw))

/-- Check 4 of the canonical revision: keyword within the first 10% of the
characters of the content (`allContent.substring(0, Math.floor(len * 0.1))`). -/
def condKeywordInFirst10Percent (blocks : List ContentBlock) (kw : List Char) : Bool :=
  jsIncludes
    (jsToLower ((allParagraphContent blocks).take ((allParagraphContent blocks).length / 10)))
    (jsToLower kw)

/-- Check 4 of the enhanced revision: keyword within the first 100
space-delimited words (`allContent.split(' ').slice(0, 100).join(' ')`). -/
def condKeywordInFirst100Words (blocks : List ContentBlock) (kw : List Char) : Bool :=
  jsIncludes
    (jsToLower (joinSpace ((jsSplitSpace (allParagraphContent blocks)).take 100)))
    (jsToLower kw)

/-- Check 5: keyword found anywhere in the content. -/
def condKeywordInContent (blocks : List ContentBlock) (kw : List Char) : Bool :=
  decide (0 < contentKeywordCount blocks kw)

/-- Check 6: at least 1102 words. -/
def condContentLength (blocks : List ContentBlock) : Bool :=
  decide (1102 ≤ contentWordCount blocks)

/-- Check 7: H1 at most 60 characters (with the JS truthiness guard). -/
def condTitleReadability (m : MetaData) : Bool :=
  !m.h1.isEmpty && decide (m.h1.length ≤ 60)

/-- Check 9: meta description length within [140,160]. -/
def condMetaDescriptionLength (m : MetaData) : Bool :=
  !m.metaDescription.isEmpty && decide (140 ≤ m.metaDescription.length)
    && decide (m.metaDescription.length ≤ 160)

/-- Check 10: keyword density within [0.5, 2.5]. -/
def condKeywordDensity (blocks : List ContentBlock) (kw : List Char) : Bool :=
  decide ((1/2 : ℚ) ≤ contentKeywordDensity blocks kw)
    && decide (contentKeywordDensity blocks kw ≤ (5/2 : ℚ))

/-- Two-digit zero-padded decimal rendering helper for `toFixed(2)`. -/
def pad2 (n : ℕ) : String := if n < 10 then "0" ++ toString n else toString n

/-- Model of `x.toFixed(2)` for a non-negative number. -/
def qToFixed2 (q : ℚ) : String :=
  let n := (jsRound (q * 100)).toNat
  toString (n / 100) ++ "." ++ pad2 (n % 100)

/-- The recommendation pushed when the content is too short. -/
def recContentLength (blocks : List ContentBlock) : String :=
  "Increase content length to at least 1102 words (current: "
    ++ toString (contentWordCount blocks) ++ ")"

/-- The recommendation pushed when the keyword density is out of range. -/
def recKeywordDensity (blocks : List ContentBlock) (kw : List Char) : String :=
  "Adjust keyword density to 0.5-2.5% (current: "
    ++ qToFixed2 (contentKeywordDensity blocks kw) ++ "%)"

/-- Canonical 10-rule revision of `validateSEOCompliance`
(seoOptimizationService.js lines 779-879): the ten weighted checks applied in
source order, followed by the analysis fields. -/
def validateSEOCompliance (blocks : List ContentBlock) (kw : List Char) (m : MetaData) :
    SEOValidation :=
  { (initValidation
      |> applyCheck (condKeywordInTitle kw m) "keywordInTitle" 15
          "Include focus keyword in H1 title"
      |> applyCheck (condKeywordInMetaDescription kw m) "keywordInMetaDescription" 10
          "Include focus keyword in meta description"
      |> applyCheck (condKeywordInURL kw m) "keywordInURL" 10
          "Include focus keyword in URL slug"
      |> applyCheck (condKeywordInFirst10Percent blocks kw) "keywordInFirst10Percent" 15
          "Include focus keyword in first 10% of content"
      |> applyCheck (condKeywordInContent blocks kw) "keywordInContent" 10
          "Include focus keyword in content"
      |> applyCheck (condContentLength blocks) "contentLength" 10
          (recContentLength blocks)
      |> applyCheck (condTitleReadability m) "titleReadability" 10
          "Keep title under 60 characters"
      |> applyCheck true "contentReadability" 10 ""
      |> applyCheck (condMetaDescriptionLength m) "metaDescriptionLength" 5
          "Meta description should be 140-160 characters"
      |> applyCheck (condKeywordDensity blocks kw) "keywordDensity" 5
          (recKeywordDensity blocks kw)) with
    keywordDensity := contentKeywordDensity blocks kw
    wordCount := contentWordCount blocks
    keywordCount := contentKeywordCount blocks kw }

/-! ### Enhanced 13-rule revision (lines 363-514)

The three extra checks 11-13 of the enhanced revision test the regexes
`<h2[^>]*>`, `<h2[^>]*>.*kw.*</h2>`, `<a[^>]*href[^>]*>` and
`alt="[^"]*kw[^"]*"` with flags `gi`; the `i` flag is modelled by lowercasing
content and keyword at the call sites.  Each scanner below performs the
leftmost, non-overlapping scan of the corresponding pattern: a negated
character class `[^x]*` cannot cross an `x`, so the closing delimiter of a
match is always the first such character after the opening literal. -/

/-- Number of matches of `<h2[^>]*>` (skip-counter scan: after recording a
match the scanner skips the remaining characters of the match). -/
def countH2TagsAux : List Char → Nat → Nat
  | [], _ => 0
  | _ :: t, n + 1 => countH2TagsAux t n
  | c :: t, 0 =>
    let rest := t.drop 2
    let seg := rest.takeWhile (fun d => d ≠ '>')
    if "<h2".toList.isPrefixOf (c :: t) && decide (seg.length < rest.length) then
      1 + countH2TagsAux t (seg.length + 3)
    else countH2TagsAux t 0

/-- Number of matches of `<h2[^>]*>`. -/
def countH2Tags (l : List Char) : Nat := countH2TagsAux l 0

/-- Greatest position `q` in `line` at which the closing literal `</h2>`
starts while the keyword occurs before it: the greedy `.*kw.*` part of
`<h2[^>]*>.*kw.*</h2>` selects the furthest possible closing tag. -/
def h2GreedyClose (line kw : List Char) : Option Nat :=
  ((List.range (line.length + 1)).filter
    (fun q => "</h2>".toList.isPrefixOf (line.drop q) && jsIncludes (line.take q) kw)).getLast?

/-- Number of matches of `<h2[^>]*>.*kw.*</h2>` (the dot does not match a
newline, so the `.*kw.*</h2>` part must lie within the line that follows the
opening tag; skip-counter scan). -/
def countH2WithKeywordAux (kw : List Char) : List Char → Nat → Nat
  | [], _ => 0
  | _ :: t, n + 1 => countH2WithKeywordAux kw t n
  | c :: t, 0 =>
    let rest := t.drop 2
    let seg := rest.takeWhile (fun d => d ≠ '>')
    let afterGt := rest.drop (seg.length + 1)
    if "<h2".toList.isPrefixOf (c :: t) && decide (seg.length < rest.length) then
      match h2GreedyClose (afterGt.takeWhile (fun d => d ≠ '\n')) kw with
      | some q => 1 + countH2WithKeywordAux kw t (seg.length + q + 8)
      | none => countH2WithKeywordAux kw t 0
    else countH2WithKeywordAux kw t 0

/-- Number of matches of `<h2[^>]*>.*kw.*</h2>`. -/
def countH2WithKeyword (kw l : List Char) : Nat := countH2WithKeywordAux kw l 0

/-- Number of matches of `<a[^>]*href[^>]*>` (skip-counter scan). -/
def countInternalLinksAux : List Char → Nat → Nat
  | [], _ => 0
  | _ :: t, n + 1 => countInternalLinksAux t n
  | c :: t, 0 =>
    let rest := t.drop 1
    let seg := rest.takeWhile (fun d => d ≠ '>')
    if "<a".toList.isPrefixOf (c :: t) && jsIncludes seg "href".toList
        && decide (seg.length < rest.length) then
      1 + countInternalLinksAux t (seg.length + 2)
    else countInternalLinksAux t 0

/-- Number of matches of `<a[^>]*href[^>]*>`. -/
def countInternalLinks (l : List Char) : Nat := countInternalLinksAux l 0

/-- Number of matches of `alt="[^"]*kw[^"]*"` (skip-counter scan). -/
def countImageAltKeywordAux (kw : List Char) : List Char → Nat → Nat
  | [], _ => 0
  | _ :: t, n + 1 => countImageAltKeywordAux kw t n
  | c :: t, 0 =>
    let rest := t.drop 4
    let seg := rest.takeWhile (fun d => d ≠ '"')
    if "alt=\"".toList.isPrefixOf (c :: t) && jsIncludes seg kw
        && decide (seg.length < rest.length) then
      1 + countImageAltKeywordAux kw t (seg.length + 5)
    else countImageAltKeywordAux kw t 0

/-- Number of matches of `alt="[^"]*kw[^"]*"`. -/
def countImageAltKeyword (kw l : List Char) : Nat := countImageAltKeywordAux kw l 0

/-- Check 11 of the enhanced revision. -/
def condKeywordInH2 (blocks : List ContentBlock) (kw : List Char) : Bool :=
  decide (1 ≤ countH2WithKeyword (jsToLower kw) (jsToLower (allParagraphContent blocks)))

/-- Check 12 of the enhanced revision. -/
def condInternalLinks (blocks : List ContentBlock) : Bool :=
  decide (2 ≤ countInternalLinks (jsToLower (allParagraphContent blocks)))

/-- Check 13 of the enhanced revision. -/
def condKeywordInImageAlt (blocks : List ContentBlock) (kw : List Char) : Bool :=
  decide (1 ≤ countImageAltKeyword (jsToLower kw) (jsToLower (allParagraphContent blocks)))

structure SEOValidationEnhanced where
  score : Nat
  maxScore : Nat
  checks : List (String × Bool)
  recommendations : List String
  keywordDensity : ℚ
  wordCount : Nat
  keywordCount : Nat
  h2Count : Nat
  h2WithKeyword : Nat
  grade : String
  status : String
  color : String
deriving Repr, DecidableEq

/-- Initial `validation` object of the enhanced revision. -/
def initValidationEnhanced : SEOValidationEnhanced :=
  { score := 0, maxScore := 100, checks := [], recommendations := []
    keywordDensity := 0, wordCount := 0, keywordCount := 0
    h2Count := 0, h2WithKeyword := 0, grade := "", status := "", color := "" }

/-- One `if`-block of the enhanced scorer. -/
def applyCheckEnhanced (cond : Bool) (name : String) (weight : Nat)
    (recommendation : String) (v : SEOValidationEnhanced) : SEOValidationEnhanced :=
  if cond then
    { v with score := v.score + weight, checks := v.checks ++ [(name, true)] }
  else
    { v with recommendations := v.recommendations ++ [recommendation] }

/-- Grade assignment at the end of the enhanced revision. -/
def gradeOf (score : Nat) : String × String × String :=
  if 85 ≤ score then ("A", "Excellent - RankMath Optimized", "green")
  else if 75 ≤ score then ("B+", "Good - Near RankMath Target", "orange")
  else if 65 ≤ score then ("B", "Good - Needs RankMath Optimization", "orange")
  else ("C", "Needs Major RankMath Improvements", "red")

/-- Enhanced 13-rule revision of `validateSEOCompliance`
(seoOptimizationService.js lines 363-514). -/
def validateSEOComplianceEnhanced (blocks : List ContentBlock) (kw : List Char)
    (m : MetaData) : SEOValidationEnhanced :=
  let v :=
    initValidationEnhanced
      |> applyCheckEnhanced (condKeywordInTitle kw m) "keywordInTitle" 15
          "Include focus keyword in H1 title"
      |> applyCheckEnhanced (condKeywordInMetaDescription kw m) "keywordInMetaDescription" 10
          "Include focus keyword in meta description"
      |> applyCheckEnhanced (condKeywordInURL kw m) "keywordInURL" 10
          "Include focus keyword in URL slug"
      |> applyCheckEnhanced (condKeywordInFirst100Words blocks kw) "keywordInFirst100Words" 15
          "Include focus keyword in first 100 words of content (CRITICAL for RankMath)"
      |> applyCheckEnhanced (condKeywordInContent blocks kw) "keywordInContent" 10
          "Include focus keyword in content"
      |> applyCheckEnhanced (condContentLength blocks) "contentLength" 10
          (recContentLength blocks)
      |> applyCheckEnhanced (condTitleReadability m) "titleReadability" 10
          "Keep title under 60 characters"
      |> applyCheckEnhanced true "contentReadability" 10 ""
      |> applyCheckEnhanced (condMetaDescriptionLength m) "metaDescriptionLength" 5
          "Meta description should be 140-160 characters"
      |> applyCheckEnhanced (condKeywordDensity blocks kw) "keywordDensity" 5
          (recKeywordDensity blocks kw)
      |> applyCheckEnhanced (condKeywordInH2 blocks kw) "keywordInH2" 5
          "Include focus keyword in at least one H2 heading"
      |> applyCheckEnhanced (condInternalLinks blocks) "internalLinks" 5
          "Add at least 2 internal links for better SEO"
      |> applyCheckEnhanced (condKeywordInImageAlt blocks kw) "keywordInImageAlt" 5
          "Include focus keyword in at least one image alt text"
  { v with
    keywordDensity := contentKeywordDensity blocks kw
    wordCount := contentWordCount blocks
    keywordCount := contentKeywordCount blocks kw
    h2Count := countH2Tags (jsToLower (allParagraphContent blocks))
    h2WithKeyword :=
      countH2WithKeyword (jsToLower kw) (jsToLower (allParagraphContent blocks))
    grade := (gradeOf v.score).1
    status := (gradeOf v.score).2.1
    color := (gradeOf v.score).2.2 }

/-! ## Meta optimizer (`optimizeMetaData`, seoOptimizationService.js lines 64-115)

The single gateway call plus `JSON.parse` of its response is modelled by an
explicit `Option ParsedMetaResponse` input: `none` models a thrown error
anywhere in the `try` block (gateway failure or a response that is not valid
JSON), `some` models a successfully parsed object whose individual fields may
still be absent (`undefined`) or empty, which the source handles with the
`||` fallback per field. -/

structure ParsedMetaResponse where
  optimizedH1 : Option String
  optimizedMetaTitle : Option String
  optimizedMetaDescription : Option String
  optimizedSlug : Option String
  keywordPlacement : Option String
  estimatedScore : Option String
deriving Repr, DecidableEq

structure OptimizedMeta where
  h1 : String
  metaTitle : String
  metaDescription : String
  slug : String
  keywordPlacement : Option String
  estimatedScore : Option String
deriving Repr, DecidableEq

/-- Model of `optimizeMetaData`: total function, never throws; the parse
failure path is the `none` branch. -/
def optimizeMetaData (keyword h1 metaTitle metaDescription : String)
    (parsed : Option ParsedMetaResponse) : OptimizedMeta :=
  match parsed with
  | some o =>
    { h1 := jsOrStr o.optimizedH1 h1
      metaTitle := jsOrStr o.optimizedMetaTitle metaTitle
      metaDescription := jsOrStr o.optimizedMetaDescription metaDescription
      slug := jsOrStr o.optimizedSlug (generateSEOSlugStr keyword)
      keywordPlacement := o.keywordPlacement
      estimatedScore := o.estimatedScore }
  | none =>
    { h1 := h1
      metaTitle := metaTitle
      metaDescription := metaDescription
      slug := generateSEOSlugStr keyword
      keywordPlacement := some "Standard placement"
      estimatedScore := some "Unable to estimate" }

/-! ## Text-generation gateway (`geminiService.js`)

`generateContent` (lines 20-86) walks the fixed model list, awaiting one
HTTP call per model; a call either yields generated text or throws.  The
outcome of the call for each model is modelled by the oracle
`attempt : String → Option String` (`none` = thrown error / timeout,
`some text` = the extracted `response.data.candidates[0].content.parts[0].text`).
`Math.random()` in the fallback generator is modelled by an explicit rational
draw `rand ∈ [0,1)`. -/

structure CompanyContext where
  name : Option String
  servicesOffered : Option String
  serviceOverview : Option String
  aboutTheCompany : Option String
  keyword : Option String
deriving Repr, DecidableEq

/-- Model of `validateCompanyContext` (lines 93-119). -/
def validateCompanyContext (ctx : CompanyContext) : CompanyContext :=
  { ctx with
    name := some (jsOrStr ctx.name "WattMonk")
    servicesOffered := some (jsOrStr ctx.servicesOffered
      "Solar Design, Engineering, Permitting, Installation Support")
    serviceOverview := some (jsOrStr ctx.serviceOverview
      "Professional solar design, engineering, permitting, and installation support services")
    aboutTheCompany := some (jsOrStr ctx.aboutTheCompany
      "WattMonk is a technology-driven solar services company providing end-to-end solar solutions.") }

/-- Greedy quoted-capture step shared by the prompt-keyword patterns:
matches `["']([^"']+)["']` at the head of `l` and returns the capture. -/
def matchQuotedCapture (l : List Char) : Option (List Char) :=
  match l with
  | [] => none
  | c :: rest =>
    if c = '"' ∨ c = '\'' then
      let cap := rest.takeWhile (fun d => d ≠ '"' ∧ d ≠ '\'')
      if cap.isEmpty then none
      else if cap.length < rest.length then some cap
      else none
    else none

/-- Tries the literal prefixes of one pattern at one position, in the
backtracking order of the regex optionals. -/
def matchPatternAt (pres : List String) (l : List Char) : Option (List Char) :=
  match pres with
  | [] => none
  | p :: ps =>
    if p.toList.isPrefixOf l then
      match matchQuotedCapture (l.drop p.length) with
      | some cap => some cap
      | none => matchPatternAt ps l
    else matchPatternAt ps l

/-- Leftmost match of one pattern over the whole string. -/
def matchPatternScan (pres : List String) : List Char → Option (List Char)
  | [] => none
  | c :: t =>
    match matchPatternAt pres (c :: t) with
    | some cap => some cap
    | none => matchPatternScan pres t

/-- The five patterns of `extractKeywordFromPrompt` (lines 172-191), expanded
into the literal-prefix alternatives of their optional groups, applied to the
lowercased prompt (`i` flag). -/
def promptKeywordPatterns : List (List String) :=
  [ [ "for the keyword ", "for the focus keyword ", "for the "
    , "for keyword ", "for focus keyword ", "for " ]
  , [ "about " ]
  , [ "regarding " ]
  , [ "on " ]
  , [ "titled ", "title " ] ]

/-- Model of `extractKeywordFromPrompt`: first pattern that matches wins,
its capture is lowercased; otherwise the default keyword. -/
def extractKeywordFromPrompt (prompt : String) : String :=
  let low := jsToLower prompt.toList
  match (promptKeywordPatterns.findSome? (fun pres => matchPatternScan pres low)) with
  | some cap => (jsToLower cap).asString
  | none => "solar energy solutions"

/-- Letters `a`-`z`. -/
def isLowerAz (c : Char) : Bool := 97 ≤ c.toNat && c.toNat ≤ 122

/-- JS regex word characters as they occur in lowercased text. -/
def isWordCharJs (c : Char) : Bool := isLowerAz c || (48 ≤ c.toNat && c.toNat ≤ 57) || c = '_'

/-- Matches of `\b[a-z]{3,}\b` over lowercased text: maximal letter runs of
length at least three whose neighbours are not word characters
(skip-counter scan; `prev` tracks the character before the cursor). -/
def azRunsAux (prev : Option Char) : List Char → Nat → List (List Char)
  | [], _ => []
  | c :: t, n + 1 => azRunsAux (some c) t n
  | c :: t, 0 =>
    if isLowerAz c then
      let run := (c :: t).takeWhile isLowerAz
      let rest := (c :: t).dropWhile isLowerAz
      let okL := match prev with | some p => !isWordCharJs p | none => true
      let okR := match rest.head? with | some n => !isWordCharJs n | none => true
      (if okL && okR && decide (3 ≤ run.length) then [run] else [])
        ++ azRunsAux (some c) t (run.length - 1)
    else azRunsAux (some c) t 0

/-- All matches of `\b[a-z]{3,}\b` in order. -/
def azRuns (prev : Option Char) (l : List Char) : List (List Char) := azRunsAux prev l 0

/-- First occurrences, in order, of the words of a list (the insertion order
of the JS `frequency` object). -/
def distinctInOrder : List (List Char) → List (List Char)
  | [] => []
  | w :: t => w :: distinctInOrder (t.filter (fun x => x ≠ w))
termination_by l => l.length
decreasing_by
  have := List.length_filter_le (fun x => decide (x ≠ w)) t
  simp only [List.length_cons]
  omega

/-- Model of `extractKeywords` (geminiService.js lines 513-526): word
frequencies over `\b[a-z]{3,}\b` matches of the lowercased text, sorted by
descending count (stable, as the JS sort is), first ten words. -/
def extractKeywords (text : String) : List String :=
  let ws := azRuns none (jsToLower text.toList)
  let withCounts := (distinctInOrder ws).map (fun w => (w, ws.count w))
  ((withCounts.mergeSort (fun a b => decide (b.2 ≤ a.2))).take 10).map
    (fun wc => wc.1.asString)

/-- The `h1Options` candidate titles of the fallback generator. -/
def h1Options (keyword : String) : List String :=
  [ "Complete " ++ capitalizeFirst keyword ++ " Guide for Solar Professionals"
  , capitalizeFirst keyword ++ ": Expert Solutions and Best Practices"
  , "Professional " ++ capitalizeFirst keyword ++ " Implementation Guide"
  , capitalizeFirst keyword ++ " Mastery: From Basics to Advanced Strategies" ]

/-- Model of `getContentTemplates` (geminiService.js lines 320-388): the four
fixed paragraph templates with keyword, company name and company-context
fields interpolated. -/
def getContentTemplates (keyword companyName : String) (ctx : CompanyContext) : List String :=
  let services := jsOrStr ctx.servicesOffered "solar services"
  let about := jsOrStr ctx.aboutTheCompany "professional solar company"
  let overview := jsOrStr ctx.serviceOverview "solar solutions"
  [ "Understanding **" ++ keyword ++ "** is essential for modern solar professionals and homeowners looking to maximize their energy efficiency. At **" ++ companyName ++ "**, our expertise in *" ++ services ++ "* has helped thousands of clients optimize their " ++ keyword ++ " strategies.\n\nAccording to [NREL research](https://www.nrel.gov/solar/), proper " ++ keyword ++ " implementation can significantly improve system performance. " ++ about ++ " Our comprehensive approach combines industry best practices with cutting-edge technology to deliver exceptional results for every " ++ keyword ++ " project.\n\n> **Key Benefits:**\n> - Enhanced system performance through proper implementation\n> - Cost-effective solutions tailored to your needs\n> - Industry-leading expertise and support\n\nFurthermore, our team provides:\n- **Professional consultation** and system analysis\n- **Custom design solutions** for residential and commercial projects\n- **Ongoing support** and maintenance services"
  , "The solar industry continues to evolve rapidly, and **" ++ keyword ++ "** represents a significant opportunity for both residential and commercial applications. **" ++ companyName ++ "** specializes in *" ++ services ++ "*, providing clients with cutting-edge " ++ keyword ++ " solutions that are both cost-effective and environmentally sustainable.\n\nOur team\x27s experience with " ++ overview ++ " ensures that every " ++ keyword ++ " implementation meets the highest industry standards. Professional installers and energy consultants trust **" ++ companyName ++ "** to stay current with the latest developments in " ++ keyword ++ ".\n\n## Key Advantages of Our Approach\n\n| Feature | Benefit | Impact |\n|---------|---------|---------|\n| **Expert Design** | Optimized system performance | Up to 25% efficiency gain |\n| **Quality Components** | Long-term reliability | 25+ year lifespan |\n| **Professional Installation** | Code compliance | Worry-free operation |\n\nAdditionally, we provide:\n1. **Comprehensive site assessment** and feasibility studies\n2. **Custom engineering solutions** for complex installations\n3. **Permit assistance** and regulatory compliance support"
  , "When it comes to **" ++ keyword ++ "**, proper planning and execution are crucial for success. **" ++ companyName ++ "** has developed a systematic approach that ensures optimal performance and long-term reliability.\n\nOur expertise in *" ++ services ++ "* spans multiple applications, from small residential projects to large-scale commercial installations. According to [SEIA data](https://www.seia.org/solar-industry-research-data), projects with proper " ++ keyword ++ " planning show **25% better performance**. This makes **" ++ companyName ++ "** the trusted choice for solar professionals nationwide.\n\n### Our Proven Process:\n\n1. **Initial Assessment** - Comprehensive site evaluation and energy analysis\n2. **Custom Design** - Tailored solutions using advanced modeling software\n3. **Professional Installation** - Certified technicians ensure quality workmanship\n4. **System Commissioning** - Thorough testing and performance verification\n\n> *\"Proper " ++ keyword ++ " implementation is the foundation of any successful solar project. Our systematic approach ensures every detail is optimized for maximum performance.\"* - " ++ companyName ++ " Engineering Team"
  , "**" ++ capitalizeFirst keyword ++ "** technology has revolutionized the way we approach solar energy systems. **" ++ companyName ++ "** leverages advanced " ++ keyword ++ " techniques through our *" ++ services ++ "* to optimize system performance and reduce installation costs.\n\n" ++ about ++ " Our team of certified professionals brings years of experience in " ++ keyword ++ " implementation, ensuring that every project meets the highest standards of quality and efficiency.\n\n## Why Choose " ++ companyName ++ "?\n\n- ✅ **Industry Expertise** - Over 1000+ successful installations\n- ✅ **Advanced Technology** - Latest tools and software for optimal design\n- ✅ **Quality Assurance** - Rigorous testing and validation processes\n- ✅ **Customer Support** - Dedicated team for ongoing assistance\n\n### Technical Specifications:\n- **System Efficiency**: Up to 22% module efficiency\n- **Warranty Coverage**: 25-year performance guarantee\n- **Installation Time**: Typically 1-3 days for residential projects\n\nVisit [WattMonk Services](https://www.wattmonk.com/service/) to learn more about our comprehensive " ++ keyword ++ " solutions and how we can help optimize your solar project." ]

/-- Array indexing by a `Math.random()` draw: `arr[Math.floor(rand * len)]`. -/
def jsRandomIndex (rand : ℚ) (len : Nat) : Nat := (⌊rand * (len : ℚ)⌋).toNat

structure GenResult where
  content : String
  keywords : List String
  wordCount : Nat
deriving Repr, DecidableEq

/-- Wraps generated gateway text the way the success path of
`generateContent` does. -/
def mkGenResult (text : String) : GenResult :=
  { content := text
    keywords := extractKeywords text
    wordCount := (jsSplitSpace text.toList).length }

/-- Model of `generateHighQualityFallback` (geminiService.js lines 121-170).
`rand` is the `Math.random()` draw used to select among the candidate
H1 titles or paragraph templates (`arr[Math.floor(rand * arr.length)]`). -/
def generateHighQualityFallback (prompt : String) (ctx : CompanyContext) (rand : ℚ) :
    GenResult :=
  let keyword := jsOrStr ctx.keyword (extractKeywordFromPrompt prompt)
  let companyName := jsOrStr ctx.name "WattMonk"
  let low := jsToLower prompt.toList
  if jsIncludes low ("meta title".toList) || jsIncludes low ("metatitle".toList) then
    { content := capitalizeFirst keyword ++ " Solutions | " ++ companyName ++ " Expert Guide"
      keywords := [keyword, "solutions", "guide"]
      wordCount := 8 }
  else if jsIncludes low ("meta description".toList)
      || jsIncludes low ("metadescription".toList) then
    { content := "Discover comprehensive " ++ keyword ++ " solutions with " ++ companyName
        ++ ". Expert insights, practical tips, and proven strategies for solar professionals and homeowners."
      keywords := [keyword, "solutions", "expert", "solar"]
      wordCount := 22 }
  else if jsIncludes low ("h1".toList) || jsIncludes low ("title".toList)
      || jsIncludes low ("heading".toList) then
    let opts := h1Options keyword
    let sel := opts.getD (jsRandomIndex rand opts.length) ""
    { content := sel
      keywords := [keyword, "guide", "professional", "solar"]
      wordCount := (jsSplitSpace sel.toList).length }
  else
    let templates := getContentTemplates keyword companyName ctx
    let sel := templates.getD (jsRandomIndex rand templates.length) ""
    { content := sel
      keywords := extractKeywords sel
      wordCount := (jsSplitSpace sel.toList).length }

/-- The fixed ordered list of backing models (geminiService.js lines 9-14). -/
def textModels : List String :=
  ["gemini-2.0-flash-exp", "gemini-1.5-pro-002", "gemini-1.5-flash-002", "gemini-pro"]

/-- The `for` loop of `generateContent`: each model is attempted once in
list order; a success returns the wrapped result, a failure of the last model
returns the fallback (inside the catch), and an empty model list would fall
out of the loop (`none`, the JS `undefined`). -/
def tryTextModels (attempt : String → Option String) (prompt : String)
    (ctx : CompanyContext) (rand : ℚ) : List String → Option GenResult
  | [] => none
  | [m] =>
    some (match attempt m with
      | some t => mkGenResult t
      | none => generateHighQualityFallback prompt ctx rand)
  | m :: rest =>
    match attempt m with
    | some t => some (mkGenResult t)
    | none => tryTextModels attempt prompt ctx rand rest

/-- Model of `generateContent` (geminiService.js lines 20-86).  The outcome
of the HTTP call per model is the oracle `attempt`; `apiKeyOk` models the
API-key guard at the top; `rand` is threaded to the fallback generator.  Note
the source asymmetry kept here: the missing-key branch hands the validated
context to the fallback, the all-models-failed branch hands the raw one. -/
def generateContent (attempt : String → Option String) (apiKeyOk : Bool)
    (prompt : String) (ctx : CompanyContext) (rand : ℚ) : Option GenResult :=
  if !apiKeyOk then
    some (generateHighQualityFallback prompt (validateCompanyContext ctx) rand)
  else
    tryTextModels attempt prompt ctx rand textModels

/-! ## WordPress publication (`wordpressService.js`)

`deployToWordPress` (lines 30-132) catches every error raised while
publishing and returns a structured failure object; `createWordPressPost`
(lines 166-292) maps HTTP statuses 404/401/403 and any non-201 status to
thrown `Error`s and remaps low-level network error codes in its own catch.
JS objects that cross the API boundary are modelled as `JsValue` association
objects so that their exact field sets are visible.  The outcome of the
external configuration lookup and of the HTTP call itself, and the wall-clock
timestamp, are explicit inputs. -/

inductive JsValue where
  | str (s : String)
  | bool (b : Bool)
  | num (n : Nat)
  | arr (xs : List JsValue)
  | obj (fields : List (String × JsValue))

/-- Field lookup on a modelled JS object. -/
def lookupField : JsValue → String → Option JsValue
  | .obj fields, k => fields.lookup k
  | _, _ => none

structure WpConfig where
  baseUrl : String
  auth : String
  username : String
deriving Repr, DecidableEq

/-- A response delivered by axios (any status below 500). -/
structure WpResponse where
  status : Nat
  id : Nat
  link : String
  message : Option String
deriving Repr, DecidableEq

/-- A thrown axios/network error. -/
structure WpNetError where
  code : Option String
  message : String
deriving Repr, DecidableEq

structure PostData where
  title : String
  content : String
  postStatus : String
  slug : String
  excerpt : String
  rankMathTitle : Option String
  rankMathDescription : Option String
  rankMathFocusKeyword : Option String
deriving Repr, DecidableEq

def stripHtmlTagsAux : List Char → Nat → List Char
  | [], _ => []
  | _ :: t, n + 1 => stripHtmlTagsAux t n
  | c :: t, 0 =>
    let seg := t.takeWhile (fun d => d ≠ '>')
    if c = '<' && decide (seg.length < t.length) then stripHtmlTagsAux t (seg.length + 1)
    else c :: stripHtmlTagsAux t 0

/-- Model of the HTML-tag stripper regex `<[^>]*>` of `generateExcerpt`
(skip-counter scan). -/
def stripHtmlTags (l : List Char) : List Char := stripHtmlTagsAux l 0

/-- Last index of a space character, if any. -/
def lastSpaceIndex (l : List Char) : Option Nat :=
  ((List.range l.length).filter (fun i => l.getD i '<' = ' ')).getLast?

/-- Model of `generateExcerpt` (wordpressService.js lines 562-577). -/
def generateExcerpt (content : String) (maxLength : Nat) : String :=
  let textOnly := stripHtmlTags content.toList
  if textOnly.length ≤ maxLength then textOnly.asString
  else
    let truncated := textOnly.take maxLength
    match lastSpaceIndex truncated with
    | some i => if 0 < i then (truncated.take i).asString ++ "..." else truncated.asString ++ "..."
    | none => truncated.asString ++ "..."

structure DraftData where
  title : String
  content : String
  focusKeyword : Option String
  slug : Option String
  metaTitle : Option String
  metaDescription : Option String
deriving Repr, DecidableEq

/-- The part of the WordPress `postData` construction in `deployToWordPress`
that the claims touch (title, slug fallback through `generateSEOSlug`,
excerpt fallback through `generateExcerpt`, RankMath meta fields); the
rendered HTML body is an input because no claim concerns the renderer. -/
def buildPostData (d : DraftData) (contentHtml : String) : PostData :=
  { title := d.title
    content := contentHtml
    postStatus := "draft"
    slug := jsOrStr d.slug (generateSEOSlugStr (jsOrStr d.focusKeyword d.title))
    excerpt := jsOrStr d.metaDescription (generateExcerpt d.content 160)
    rankMathTitle := d.metaTitle
    rankMathDescription := d.metaDescription
    rankMathFocusKeyword := d.focusKeyword }

/-- The status checks of `createWordPressPost`: the message of the error
thrown for each non-created status, `none` for 201. -/
def wpStatusError (r : WpResponse) : Option String :=
  if r.status = 404 then
    some "WordPress REST API not found. Please check if the WordPress site URL is correct and REST API is enabled."
  else if r.status = 401 then
    some "WordPress authentication failed. Please check your username and application password."
  else if r.status = 403 then
    some "WordPress access forbidden. User may not have permission to create posts."
  else if r.status ≠ 201 then
    some ("WordPress API returned status: " ++ toString r.status ++ ". "
      ++ jsOrStr r.message "Unknown error")
  else none

/-- The success object returned by `createWordPressPost` (lines 243-266). -/
def wpSuccessObject (post : PostData) (cfg : WpConfig) (r : WpResponse) : JsValue :=
  .obj
    [ ("success", .bool true)
    , ("postId", .num r.id)
    , ("editUrl", .str (cfg.baseUrl ++ "/wp-admin/post.php?post=" ++ toString r.id ++ "&action=edit"))
    , ("previewUrl", .str r.link)
    , ("wordpressId", .num r.id)
    , ("message", .str "Successfully deployed to WordPress")
    , ("seoInstructions", .obj
        [ ("metaTitle", .str (jsOrStr post.rankMathTitle post.title))
        , ("metaDescription", .str (jsOrStr post.rankMathDescription post.excerpt))
        , ("focusKeyword", .str (jsOrStr post.rankMathFocusKeyword "Not specified"))
        , ("rankMathOptimized", .bool true)
        , ("wattmonkStyling", .bool true)
        , ("instructions", .arr
            [ .str "✅ RankMath SEO fields have been automatically set"
            , .str "✅ WattMonk brand styling applied to content"
            , .str "Go to WordPress admin → Posts → Edit this post"
            , .str "RankMath will show 85-100/100 SEO score automatically"
            , .str "Content is ready for publishing with professional formatting"
            , .str ("Focus Keyword: \"" ++ jsOrStr post.rankMathFocusKeyword "Not set"
                ++ "\" is optimized") ])
        , ("expectedRankMathScore", .str "85-100/100") ]) ]

/-- Model of `createWordPressPost` (lines 166-292): a failed HTTP call or a
non-201 status becomes an `Except.error` carrying exactly the thrown
message (every status-check message contains "WordPress", so the catch
rethrows it unchanged; network error codes are remapped first). -/
def createWordPressPost (call : Except WpNetError WpResponse) (post : PostData)
    (cfg : WpConfig) : Except String JsValue :=
  match call with
  | .error e =>
    if e.code = some "ENOTFOUND" then
      .error ("WordPress site not found. Please check the site URL: " ++ cfg.baseUrl)
    else if e.code = some "ECONNREFUSED" then
      .error ("Cannot connect to WordPress site. Please check if the site is accessible: "
        ++ cfg.baseUrl)
    else if e.code = some "ETIMEDOUT" then
      .error "WordPress request timed out. The site may be slow or unreachable."
    else if jsIncludes e.message.toList ("WordPress".toList) then
      .error e.message
    else
      .error ("WordPress deployment failed: " ++ e.message)
  | .ok r =>
    match wpStatusError r with
    | some msg => .error msg
    | none => .ok (wpSuccessObject post cfg r)

/-- External outcomes consumed by one `deployToWordPress` run. -/
structure DeployDeps where
  config : Except String WpConfig
  call : Except WpNetError WpResponse
  timestamp : String

/-- The structured failure object built in the catch of `deployToWordPress`
(lines 118-131): exactly the fields `success`, `error`, `details`. -/
def wpFailureObject (msg ts companyId : String) : JsValue :=
  .obj
    [ ("success", .bool false)
    , ("error", .str msg)
    , ("details", .obj
        [ ("originalError", .str msg)
        , ("timestamp", .str ts)
        , ("companyId", .str companyId) ]) ]

/-- Model of `deployToWordPress` (lines 30-132): any error thrown while
fetching the configuration or creating the post is caught and turned into
the structured failure object; nothing is rethrown to the caller. -/
def deployToWordPress (d : DraftData) (contentHtml : String) (companyId : String)
    (deps : DeployDeps) : JsValue :=
  match deps.config with
  | .error e => wpFailureObject e deps.timestamp companyId
  | .ok cfg =>
    match createWordPressPost deps.call (buildPostData d contentHtml) cfg with
    | .error e => wpFailureObject e deps.timestamp companyId
    | .ok result => result

/-! ## Derived notions used by the verification -/

/-- The weight table of the rubric, keyed by the names recorded in the
`checks` map (both revisions; names not in the rubric weigh 0). -/
def ruleWeight : String → Nat
  | "keywordInTitle" => 15
  | "keywordInMetaDescription" => 10
  | "keywordInURL" => 10
  | "keywordInFirst10Percent" => 15
  | "keywordInFirst100Words" => 15
  | "keywordInContent" => 10
  | "contentLength" => 10
  | "titleReadability" => 10
  | "contentReadability" => 10
  | "metaDescriptionLength" => 5
  | "keywordDensity" => 5
  | "keywordInH2" => 5
  | "internalLinks" => 5
  | "keywordInImageAlt" => 5
  | _ => 0

/-- Sum of the rubric weights of the recorded checks. -/
def sumRuleWeights (checks : List (String × Bool)) : Nat :=
  (checks.map (fun c => ruleWeight c.1)).sum

/-- The bookkeeping invariant of the scorer after `n` rules have been
processed: the score is the sum of the weights of the recorded checks, every
recorded check is a pass, and each processed rule contributed exactly one
check entry or exactly one recommendation. -/
def ScoreInv (score : Nat) (checks : List (String × Bool))
    (recommendations : List String) (n : Nat) : Prop :=
  score = sumRuleWeights checks ∧
  checks.length + recommendations.length = n ∧
  ∀ c ∈ checks, c.2 = true

/-- String-level wrapper of the edge-hyphen strip step. -/
def stripEdgeHyphensStr (s : String) : String := (stripEdgeHyphens s.toList).asString

/-- Truth of "this deployment run fails": the configuration lookup throws,
the HTTP call throws, or the response status is not 201. -/
def deployFailsB (deps : DeployDeps) : Bool :=
  match deps.config, deps.call with
  | .error _, _ => true
  | .ok _, .error _ => true
  | .ok _, .ok r => decide (r.status ≠ 201)

/-! ## Concrete program runs used as evidence -/

/-- A paragraph of 1103 space-separated tokens: eight keyword occurrences,
a long run of empty tokens (split on single spaces keeps them), and one
keyword-bearing image alt attribute. -/
def c1Content : List Char :=
  "solar solar solar solar solar solar solar solar".toList
    ++ List.replicate 1095 ' ' ++ "alt=\"solar\"".toList

def c1Blocks : List ContentBlock :=
  [{ id := "intro-1", type := "paragraph", content := c1Content }]

def c1Meta : MetaData :=
  { h1 := "Best solar guide".toList
    metaTitle := []
    metaDescription := "solar".toList ++ List.replicate 140 'x'
    slug := "solar".toList }

/-- A 29-character keyword whose occurrences sit at the end of the body. -/
def c4Kw : List Char := List.replicate 29 'q'

/-- 100 one-character words followed by one 58-character word holding two
keyword occurrences: density 2/101 ≈ 1.98%, keyword absent from the first
100 words and from the first 10% of the characters. -/
def c4ContentBefore : List Char :=
  joinSpace (List.replicate 100 ['b'] ++ [List.replicate 58 'q'])

/-- The same body with the keyword inserted at the front of the first 100
words: density rises to 3/102 ≈ 2.94%, outside the rubric range. -/
def c4ContentAfter : List Char := c4Kw ++ [' '] ++ c4ContentBefore

def c4BlocksBefore : List ContentBlock :=
  [{ id := "intro-1", type := "paragraph", content := c4ContentBefore }]

def c4BlocksAfter : List ContentBlock :=
  [{ id := "intro-1", type := "paragraph", content := c4ContentAfter }]

def c4Meta : MetaData :=
  { h1 := ['t'], metaTitle := [], metaDescription := ['d'], slug := ['s'] }

def c5Draft : DraftData :=
  { title := "Solar Panel Installation Guide"
    content := "<p>body</p>"
    focusKeyword := some "solar panel installation"
    slug := none
    metaTitle := some "Solar Panel Installation | WattMonk"
    metaDescription := some "Learn solar panel installation."  }

/-- A deployment run whose HTTP call returns 401 Unauthorized. -/
def c5DepsAuth : DeployDeps :=
  { config := .ok { baseUrl := "https://blog.example.com", auth := "dXNlcjpwdw==", username := "user" }
    call := .ok { status := 401, id := 0, link := "", message := none }
    timestamp := "2024-01-01T00:00:00.000Z" }

/-- A deployment run whose HTTP call returns 403 Forbidden. -/
def c5DepsForbidden : DeployDeps :=
  { config := .ok { baseUrl := "https://blog.example.com", auth := "dXNlcjpwdw==", username := "user" }
    call := .ok { status := 403, id := 0, link := "", message := none }
    timestamp := "2024-01-01T00:00:00.000Z" }

def c6Ctx : CompanyContext :=
  { name := some "WattMonk"
    servicesOffered := some "Solar Design and Engineering"
    serviceOverview := some "Solar design services"
    aboutTheCompany := some "WattMonk is a solar services company."
    keyword := some "solar panel installation" }

/-- A prompt that reaches the paragraph-template branch of the fallback
generator (it contains none of the meta-title / meta-description / h1 /
title / heading markers). -/
def c6Prompt : String := "Write a detailed body paragraph about photovoltaics"

/-- 49 letters followed by a hyphen and another letter: the slug pipeline
normalises this to 51 characters and the final truncation to 50 cuts right
after the hyphen. -/
def c10Input : String := (List.replicate 49 'a' ++ ['-', 'b']).asString

/-! ## General lemmas about the scorer -/

theorem applyCheck_score (cond : Bool) (name : String) (w : Nat) (r : String)
    (v : SEOValidation) :
    (applyCheck cond name w r v).score = v.score + (if cond then w else 0) := by
  cases cond <;> simp [applyCheck]

/-- The canonical scorer as a sum of weighted indicator terms, one per rule
in source order (rule 8 always passes). -/
theorem validateSEOCompliance_score_eq (b : List ContentBlock) (k : List Char) (m : MetaData) :
    (validateSEOCompliance b k m).score =
      (if condKeywordInTitle k m then 15 else 0)
      + (if condKeywordInMetaDescription k m then 10 else 0)
      + (if condKeywordInURL k m then 10 else 0)
      + (if condKeywordInFirst10Percent b k then 15 else 0)
      + (if condKeywordInContent b k then 10 else 0)
      + (if condContentLength b then 10 else 0)
      + (if condTitleReadability m then 10 else 0)
      + 10
      + (if condMetaDescriptionLength m then 5 else 0)
      + (if condKeywordDensity b k then 5 else 0) := by
  simp [validateSEOCompliance, applyCheck_score, initValidation]

theorem applyCheckEnhanced_score (cond : Bool) (name : String) (w : Nat) (r : String)
    (v : SEOValidationEnhanced) :
    (applyCheckEnhanced cond name w r v).score = v.score + (if cond then w else 0) := by
  cases cond <;> simp [applyCheckEnhanced]

theorem applyCheckEnhanced_maxScore (cond : Bool) (name : String) (w : Nat) (r : String)
    (v : SEOValidationEnhanced) :
    (applyCheckEnhanced cond name w r v).maxScore = v.maxScore := by
  cases cond <;> simp [applyCheckEnhanced]

/-- The enhanced scorer as a sum of weighted indicator terms; the thirteen
weights total 115. -/
theorem validateSEOComplianceEnhanced_score_eq (b : List ContentBlock) (k : List Char)
    (m : MetaData) :
    (validateSEOComplianceEnhanced b k m).score =
      (if condKeywordInTitle k m then 15 else 0)
      + (if condKeywordInMetaDescription k m then 10 else 0)
      + (if condKeywordInURL k m then 10 else 0)
      + (if condKeywordInFirst100Words b k then 15 else 0)
      + (if condKeywordInContent b k then 10 else 0)
      + (if condContentLength b then 10 else 0)
      + (if condTitleReadability m then 10 else 0)
      + 10
      + (if condMetaDescriptionLength m then 5 else 0)
      + (if condKeywordDensity b k then 5 else 0)
      + (if condKeywordInH2 b k then 5 else 0)
      + (if condInternalLinks b then 5 else 0)
      + (if condKeywordInImageAlt b k then 5 else 0) := by
  simp [validateSEOComplianceEnhanced, applyCheckEnhanced_score, initValidationEnhanced]

theorem applyCheck_scoreInv {n : Nat} {v : SEOValidation} {cond : Bool} {name : String}
    {w : Nat} {r : String} (hw : ruleWeight name = w)
    (h : ScoreInv v.score v.checks v.recommendations n) :
    ScoreInv (applyCheck cond name w r v).score (applyCheck cond name w r v).checks
      (applyCheck cond name w r v).recommendations (n + 1) := by
  obtain ⟨h1, h2, h3⟩ := h
  cases cond
  · refine ⟨?_, ?_, ?_⟩
    · simp [applyCheck, h1]
    · simp [applyCheck]; omega
    · intro c hc
      simp only [applyCheck, Bool.false_eq_true, if_false] at hc
      exact h3 c hc
  · refine ⟨?_, ?_, ?_⟩
    · simp [applyCheck, sumRuleWeights, h1, hw]
    · simp [applyCheck]; omega
    · intro c hc
      simp only [applyCheck, if_true] at hc
      rcases List.mem_append.mp hc with hc2 | hc2
      · exact h3 c hc2
      · rw [List.mem_singleton.mp hc2]

theorem applyCheckEnhanced_scoreInv {n : Nat} {v : SEOValidationEnhanced} {cond : Bool}
    {name : String} {w : Nat} {r : String} (hw : ruleWeight name = w)
    (h : ScoreInv v.score v.checks v.recommendations n) :
    ScoreInv (applyCheckEnhanced cond name w r v).score
      (applyCheckEnhanced cond name w r v).checks
      (applyCheckEnhanced cond name w r v).recommendations (n + 1) := by
  obtain ⟨h1, h2, h3⟩ := h
  cases cond
  · refine ⟨?_, ?_, ?_⟩
    · simp [applyCheckEnhanced, h1]
    · simp [applyCheckEnhanced]; omega
    · intro c hc
      simp only [applyCheckEnhanced, Bool.false_eq_true, if_false] at hc
      exact h3 c hc
  · refine ⟨?_, ?_, ?_⟩
    · simp [applyCheckEnhanced, sumRuleWeights, h1, hw]
    · simp [applyCheckEnhanced]; omega
    · intro c hc
      simp only [applyCheckEnhanced, if_true] at hc
      rcases List.mem_append.mp hc with hc2 | hc2
      · exact h3 c hc2
      · rw [List.mem_singleton.mp hc2]

/-! ## General lemmas about strings and the slug pipeline -/

theorem jsIncludes_nil (hay : List Char) : jsIncludes hay [] = true := by
  cases hay <;> rfl

theorem jsIncludes_sandwich (a x b : List Char) : jsIncludes (a ++ (x ++ b)) x = true := by
  induction a with
  | nil =>
    cases x with
    | nil => simpa using jsIncludes_nil b
    | cons c t =>
      simp only [List.nil_append, jsIncludes, Bool.or_eq_true]
      left
      rw [List.isPrefixOf_iff_prefix]
      exact List.prefix_append (c :: t) b
  | cons c t ih =>
    simp only [List.cons_append, jsIncludes, Bool.or_eq_true]
    right
    exact ih

theorem mem_collapseRunsAux {p : Char → Bool} {rep : Char} :
    ∀ {b : Bool} {l : List Char} {c : Char}, c ∈ collapseRunsAux p rep b l →
      c = rep ∨ (c ∈ l ∧ p c = false) := by
  intro b l
  induction l generalizing b with
  | nil => intro c hc; simp [collapseRunsAux] at hc
  | cons d t ih =>
    intro c hc
    by_cases hp : p d
    · simp only [collapseRunsAux, if_pos hp, List.mem_append] at hc
      rcases hc with hc | hc
      · cases b <;> simp at hc
        · left; exact hc
      · rcases ih hc with h | ⟨h1, h2⟩
        · left; exact h
        · right; exact ⟨List.mem_cons_of_mem d h1, h2⟩
    · simp only [collapseRunsAux, if_neg hp, List.mem_cons] at hc
      rcases hc with rfl | hc
      · right; exact ⟨List.mem_cons_self c t, by simpa using hp⟩
      · rcases ih hc with h | ⟨h1, h2⟩
        · left; exact h
        · right; exact ⟨List.mem_cons_of_mem d h1, h2⟩

theorem collapseRunsAux_eq_self {p : Char → Bool} {rep : Char} :
    ∀ {b : Bool} {l : List Char}, (∀ c ∈ l, p c = false) →
      collapseRunsAux p rep b l = l := by
  intro b l
  induction l generalizing b with
  | nil => intro _; rfl
  | cons d t ih =>
    intro h
    have hd : p d = false := h d (List.mem_cons_self d t)
    simp only [collapseRunsAux, hd, Bool.false_eq_true, if_false]
    rw [ih (fun c hc => h c (List.mem_cons_of_mem d hc))]

theorem collapseRunsAux_true_head {l : List Char} {d : Char}
    (h : (collapseRunsAux (fun c => c = '-') '-' true l).head? = some d) : d ≠ '-' := by
  induction l with
  | nil => simp [collapseRunsAux] at h
  | cons c t ih =>
    by_cases hc : c = '-'
    · have hcb : (decide (c = '-')) = true := by simp [hc]
      simp only [collapseRunsAux, hcb, if_true, List.nil_append] at h
      exact ih h
    · have hcb : (decide (c = '-')) = false := by simp [hc]
      simp only [collapseRunsAux, hcb, Bool.false_eq_true, if_false, List.head?_cons,
        Option.some.injEq] at h
      subst h
      exact hc

/-- The hyphen collapse never leaves two adjacent hyphens. -/
theorem chain_collapseHyphens (l : List Char) :
    ∀ b, List.Chain' (fun a c => ¬(a = '-' ∧ c = '-'))
      (collapseRunsAux (fun c => c = '-') '-' b l) := by
  induction l with
  | nil => intro b; simp [collapseRunsAux]
  | cons c t ih =>
    intro b
    by_cases hc : c = '-'
    · have hcb : (decide (c = '-')) = true := by simp [hc]
      simp only [collapseRunsAux, hcb, if_true]
      cases b
      · simp only [Bool.false_eq_true, if_false, List.singleton_append]
        rw [List.chain'_cons']
        refine ⟨?_, ih true⟩
        intro y hy
        have hne := collapseRunsAux_true_head (l := t) (d := y) hy
        simp [hne]
      · simpa using ih true
    · have hcb : (decide (c = '-')) = false := by simp [hc]
      simp only [collapseRunsAux, hcb, Bool.false_eq_true, if_false]
      rw [List.chain'_cons']
      exact ⟨fun y _ => by simp [hc], ih false⟩

/-- On a string without adjacent hyphens the hyphen collapse is the
identity. -/
theorem collapseHyphens_eq_self {l : List Char}
    (h : List.Chain' (fun a c => ¬(a = '-' ∧ c = '-')) l) :
    collapseRunsAux (fun c => c = '-') '-' false l = l := by
  induction l with
  | nil => rfl
  | cons c t ih =>
    rw [List.chain'_cons'] at h
    obtain ⟨hhead, hch⟩ := h
    by_cases hc : c = '-'
    · subst hc
      have hcb : (decide (('-' : Char) = '-')) = true := by decide
      simp only [collapseRunsAux, hcb, if_true, Bool.false_eq_true, if_false,
        List.singleton_append]
      cases t with
      | nil => rfl
      | cons d t2 =>
        have hd : d ≠ '-' := fun hd => hhead d rfl ⟨rfl, hd⟩
        have hdb : (decide (d = '-')) = false := by simp [hd]
        have htail := ih hch
        simp only [collapseRunsAux, hdb, Bool.false_eq_true, if_false,
          List.cons.injEq, true_and] at htail ⊢
        simp only [ite_self, List.cons.injEq, true_and]
        exact htail
    · have hcb : (decide (c = '-')) = false := by simp [hc]
      simp only [collapseRunsAux, hcb, Bool.false_eq_true, if_false, List.cons.injEq, true_and]
      exact ih hch

theorem stripEdgeHyphens_isInf (l : List Char) : stripEdgeHyphens l <:+: l := by
  unfold stripEdgeHyphens
  dsimp only
  have hs : l.tail <:+: l := List.IsSuffix.isInfix (List.tail_suffix l)
  split_ifs with h1 h2 h3
  · exact ( List.IsPrefix.isInfix (List.dropLast_prefix l.tail)).trans hs
  · exact hs
  · exact List.IsPrefix.isInfix (List.dropLast_prefix l)
  · exact List.infix_rfl

/-- Every character of a slug is a lower-case letter, a digit or a hyphen;
in particular it survives the keep-filter and is no whitespace. -/
theorem mem_generateSEOSlug {l : List Char} {c : Char} (hc : c ∈ generateSEOSlug l) :
    isSlugKeep c = true ∧ isJsWhitespace c = false := by
  have h2 : c ∈ stripEdgeHyphens (collapseRuns (fun c => c = '-') '-'
      (collapseRuns isJsWhitespace '-' ((jsToLower l).filter isSlugKeep))) :=
    List.take_subset _ _ hc
  have h3 := List.IsInfix.subset (stripEdgeHyphens_isInf _) h2
  rcases mem_collapseRunsAux h3 with rfl | ⟨h4, _⟩
  · exact ⟨by decide, by decide⟩
  · rcases mem_collapseRunsAux h4 with rfl | ⟨h5, h6⟩
    · exact ⟨by decide, by decide⟩
    · exact ⟨(List.mem_filter.mp h5).2, h6⟩

theorem chain_generateSEOSlug (l : List Char) :
    List.Chain' (fun a c => ¬(a = '-' ∧ c = '-')) (generateSEOSlug l) := by
  have hchain := chain_collapseHyphens
    (collapseRuns isJsWhitespace '-' ((jsToLower l).filter isSlugKeep)) false
  have h1 : generateSEOSlug l <:+:
      collapseRuns (fun c => c = '-') '-'
        (collapseRuns isJsWhitespace '-' ((jsToLower l).filter isSlugKeep)) := by
    have hp := List.take_prefix 50 (stripEdgeHyphens (collapseRuns (fun c => c = '-') '-'
      (collapseRuns isJsWhitespace '-' ((jsToLower l).filter isSlugKeep))))
    exact ( List.IsPrefix.isInfix hp).trans (stripEdgeHyphens_isInf _)
  exact List.Chain'.infix hchain h1

theorem length_generateSEOSlug (l : List Char) : (generateSEOSlug l).length ≤ 50 := by
  simp [generateSEOSlug, List.length_take]

theorem length_stripEdgeHyphens_le (l : List Char) :
    (stripEdgeHyphens l).length ≤ l.length :=
  List.IsInfix.length_le (stripEdgeHyphens_isInf l)

theorem jsToLowerChar_fixed {c : Char} (h1 : isSlugKeep c = true)
    (h2 : isJsWhitespace c = false) : jsToLowerChar c = c := by
  have hno : ¬(65 ≤ c.toNat ∧ c.toNat ≤ 90) := by
    rintro ⟨ha, hb⟩
    simp only [isSlugKeep, Bool.or_eq_true, Bool.and_eq_true, decide_eq_true_eq] at h1
    rcases h1 with ((⟨h3, h4⟩ | ⟨h3, h4⟩) | h1) | rfl
    · omega
    · omega
    · rw [h1] at h2; cases h2
    · exact absurd ha (by decide)
  unfold jsToLowerChar
  rw [if_neg hno]

/-- A slug is a fixed point of every pipeline stage except the edge strip. -/
theorem generateSEOSlug_second (l : List Char) :
    generateSEOSlug (generateSEOSlug l) = stripEdgeHyphens (generateSEOSlug l) := by
  have hmem := fun c hc => mem_generateSEOSlug (l := l) (c := c) hc
  have h1 : jsToLower (generateSEOSlug l) = generateSEOSlug l := by
    have := List.map_congr_left (l := generateSEOSlug l) (f := jsToLowerChar) (g := id)
      (fun a ha => jsToLowerChar_fixed (hmem a ha).1 (hmem a ha).2)
    simpa [jsToLower] using this
  have h2 : (generateSEOSlug l).filter isSlugKeep = generateSEOSlug l :=
    List.filter_eq_self.mpr (fun a ha => (hmem a ha).1)
  have h3 : collapseRuns isJsWhitespace '-' (generateSEOSlug l) = generateSEOSlug l :=
    collapseRunsAux_eq_self (fun a ha => (hmem a ha).2)
  have h4 : collapseRuns (fun c => c = '-') '-' (generateSEOSlug l) = generateSEOSlug l :=
    collapseHyphens_eq_self (chain_generateSEOSlug l)
  have h5 : (stripEdgeHyphens (generateSEOSlug l)).length ≤ 50 :=
    le_trans (length_stripEdgeHyphens_le _) (length_generateSEOSlug l)
  conv_lhs => rw [generateSEOSlug]
  rw [h1, h2, h3, h4, List.take_of_length_le h5]

/-! ## Lemmas about the publication error path -/

theorem createWordPressPost_error_shape (e : WpNetError) (post : PostData) (cfg : WpConfig) :
    ∃ msg, createWordPressPost (.error e) post cfg = .error msg := by
  show ∃ msg, (if e.code = some "ENOTFOUND" then
      (Except.error ("WordPress site not found. Please check the site URL: " ++ cfg.baseUrl) :
        Except String JsValue)
    else if e.code = some "ECONNREFUSED" then
      .error ("Cannot connect to WordPress site. Please check if the site is accessible: "
        ++ cfg.baseUrl)
    else if e.code = some "ETIMEDOUT" then
      .error "WordPress request timed out. The site may be slow or unreachable."
    else if jsIncludes e.message.toList ("WordPress".toList) then .error e.message
    else .error ("WordPress deployment failed: " ++ e.message)) = .error msg
  split_ifs <;> exact ⟨_, rfl⟩

theorem wpStatusError_of_ne {r : WpResponse} (h : r.status ≠ 201) :
    ∃ msg, wpStatusError r = some msg := by
  unfold wpStatusError
  split_ifs <;> exact ⟨_, rfl⟩

/-! ## Claim C1 -/

/-- C1: the claim states that the SEO compliance scorer never returns more
than 100 points.  The enhanced 13-rule revision of `validateSEOCompliance`
violates this: on a concrete run whose content passes the image-alt check on
top of all ten base rules it returns 105 points while its own `maxScore`
field says 100 — the duplicate-rubric overflow the specification warns
about. -/
theorem validateSEOComplianceEnhanced_exceeds_own_maxScore :
    (validateSEOComplianceEnhanced c1Blocks ("solar".toList) c1Meta).score = 105 ∧
    (validateSEOComplianceEnhanced c1Blocks ("solar".toList) c1Meta).maxScore = 100 := by
  constructor
  · rw [validateSEOComplianceEnhanced_score_eq]
    have hwc : contentWordCount c1Blocks = 1103 := by decide
    have hkc : contentKeywordCount c1Blocks ("solar".toList) = 9 := by decide
    have hd : condKeywordDensity c1Blocks ("solar".toList) = true := by
      simp only [condKeywordDensity, contentKeywordDensity, hwc, hkc]
      norm_num
    have h1 : condKeywordInTitle ("solar".toList) c1Meta = true := by decide
    have h2 : condKeywordInMetaDescription ("solar".toList) c1Meta = true := by decide
    have h3 : condKeywordInURL ("solar".toList) c1Meta = true := by decide
    have h4 : condKeywordInFirst100Words c1Blocks ("solar".toList) = true := by decide
    have h5 : condKeywordInContent c1Blocks ("solar".toList) = true := by decide
    have h6 : condContentLength c1Blocks = true := by decide
    have h7 : condTitleReadability c1Meta = true := by decide
    have h9 : condMetaDescriptionLength c1Meta = true := by decide
    have h11 : condKeywordInH2 c1Blocks ("solar".toList) = false := by decide
    have h12 : condInternalLinks c1Blocks = false := by decide
    have h13 : condKeywordInImageAlt c1Blocks ("solar".toList) = true := by decide
    rw [h1, h2, h3, h4, h5, h6, h7, h9, hd, h11, h12, h13]
    decide
  · simp [validateSEOComplianceEnhanced, applyCheckEnhanced_maxScore, initValidationEnhanced]

/-! ## Claim C2 -/

/-- C2 counterexample: the claim says the planned word counts sum to within
6 words of the target total.  At target 2500 the enhanced planner allocates
10% + 4·20% + 12% = 102%, so the sum is 2550, off by 50. -/
theorem plannedWordTotal_misses_target_at_2500 :
    plannedWordTotal (generateKeywordOptimizedStructureEnhanced "solar panel installation" 2500)
      = 2550 ∧
    ¬(|plannedWordTotal
        (generateKeywordOptimizedStructureEnhanced "solar panel installation" 2500)
      - (2500 : ℤ)| ≤ 6) := by
  have h : plannedWordTotal
      (generateKeywordOptimizedStructureEnhanced "solar panel installation" 2500) = 2550 := by
    simp only [plannedWordTotal, generateKeywordOptimizedStructureEnhanced, jsRound,
      List.map_cons, List.map_nil, List.sum_cons, List.sum_nil]
    norm_num
  refine ⟨h, ?_⟩
  rw [h]
  decide

/-- C2 as amended: for every keyword and every positive target the enhanced
planner's section word counts sum to within 6 words of 102% of the target,
and the base planner's to within 6 words of 90% of the target (each section
contributes at most 1/2 a word of rounding error). -/
theorem plannedWordTotal_tracks_scaled_target : ∀ (kw : String) (t : ℕ), 0 < t →
    |(plannedWordTotal (generateKeywordOptimizedStructureEnhanced kw t) : ℚ)
      - (102/100) * t| ≤ 6 ∧
    |(plannedWordTotal (generateKeywordOptimizedStructureBase kw t) : ℚ)
      - (90/100) * t| ≤ 6 := by
  intro kw t ht
  constructor
  · simp only [plannedWordTotal, generateKeywordOptimizedStructureEnhanced, jsRound,
      List.map_cons, List.map_nil, List.sum_cons, List.sum_nil]
    have f1 := Int.floor_le ((t : ℚ) * (10/100) + 1/2)
    have f1' := Int.sub_one_lt_floor ((t : ℚ) * (10/100) + 1/2)
    have f2 := Int.floor_le ((t : ℚ) * (20/100) + 1/2)
    have f2' := Int.sub_one_lt_floor ((t : ℚ) * (20/100) + 1/2)
    have f3 := Int.floor_le ((t : ℚ) * (12/100) + 1/2)
    have f3' := Int.sub_one_lt_floor ((t : ℚ) * (12/100) + 1/2)
    rw [abs_le]
    constructor <;> push_cast <;> linarith
  · simp only [plannedWordTotal, generateKeywordOptimizedStructureBase, jsRound,
      List.map_cons, List.map_nil, List.sum_cons, List.sum_nil]
    have f1 := Int.floor_le ((t : ℚ) * (8/100) + 1/2)
    have f1' := Int.sub_one_lt_floor ((t : ℚ) * (8/100) + 1/2)
    have f2 := Int.floor_le ((t : ℚ) * (18/100) + 1/2)
    have f2' := Int.sub_one_lt_floor ((t : ℚ) * (18/100) + 1/2)
    have f3 := Int.floor_le ((t : ℚ) * (10/100) + 1/2)
    have f3' := Int.sub_one_lt_floor ((t : ℚ) * (10/100) + 1/2)
    rw [abs_le]
    constructor <;> push_cast <;> linarith

/-- Witness for the amended C2 at keyword "solar panel installation" and
target 2500. -/
theorem plannedWordTotal_tracks_scaled_target_witness :
    0 < (2500 : ℕ) ∧
    (|(plannedWordTotal
        (generateKeywordOptimizedStructureEnhanced "solar panel installation" 2500) : ℚ)
      - (102/100) * (2500 : ℕ)| ≤ 6 ∧
     |(plannedWordTotal
        (generateKeywordOptimizedStructureBase "solar panel installation" 2500) : ℚ)
      - (90/100) * (2500 : ℕ)| ≤ 6) :=
  ⟨by decide, plannedWordTotal_tracks_scaled_target "solar panel installation" 2500 (by decide)⟩

/-! ## Claim C3 -/

/-- C3: in both revisions of `validateSEOCompliance` the returned score is
exactly the sum of the rubric weights of the rules recorded as passed in the
`checks` map (all of whose entries are `true`), and each rule that does not
pass contributes exactly one recommendation string: checks and
recommendations together account for all 10 (canonical) respectively 13
(enhanced) rules. -/
theorem validateSEOCompliance_score_is_weight_sum :
    (∀ (b : List ContentBlock) (k : List Char) (m : MetaData),
      ScoreInv (validateSEOCompliance b k m).score (validateSEOCompliance b k m).checks
        (validateSEOCompliance b k m).recommendations 10) ∧
    (∀ (b : List ContentBlock) (k : List Char) (m : MetaData),
      ScoreInv (validateSEOComplianceEnhanced b k m).score
        (validateSEOComplianceEnhanced b k m).checks
        (validateSEOComplianceEnhanced b k m).recommendations 13) := by
  constructor
  · intro b k m
    exact applyCheck_scoreInv rfl (applyCheck_scoreInv rfl (applyCheck_scoreInv rfl
      (applyCheck_scoreInv rfl (applyCheck_scoreInv rfl (applyCheck_scoreInv rfl
      (applyCheck_scoreInv rfl (applyCheck_scoreInv rfl (applyCheck_scoreInv rfl
      (applyCheck_scoreInv rfl ⟨rfl, rfl, by simp [initValidation]⟩)))))))))
  · intro b k m
    exact applyCheckEnhanced_scoreInv rfl (applyCheckEnhanced_scoreInv rfl
      (applyCheckEnhanced_scoreInv rfl (applyCheckEnhanced_scoreInv rfl
      (applyCheckEnhanced_scoreInv rfl (applyCheckEnhanced_scoreInv rfl
      (applyCheckEnhanced_scoreInv rfl (applyCheckEnhanced_scoreInv rfl
      (applyCheckEnhanced_scoreInv rfl (applyCheckEnhanced_scoreInv rfl
      (applyCheckEnhanced_scoreInv rfl (applyCheckEnhanced_scoreInv rfl
      (applyCheckEnhanced_scoreInv rfl ⟨rfl, rfl, by simp [initValidationEnhanced]⟩))))))))))))

/-! ## Claim C4 -/

/-- C4 counterexample: the claim says inserting the missing keyword into the
first 100 words of the body never decreases the score.  On a body whose first
100 words lack the 29-character keyword, inserting the keyword at the very
front of the body drops the canonical score from 35 to 30: the keyword
density rises from 1.98% to 2.94%, leaving the 0.5-2.5% band, while the
first-10%-of-characters check still fails (28 < 29 characters). -/
theorem seo_score_drops_on_keyword_insertion :
    condKeywordInFirst100Words c4BlocksBefore c4Kw = false ∧
    (validateSEOCompliance c4BlocksAfter c4Kw c4Meta).score <
      (validateSEOCompliance c4BlocksBefore c4Kw c4Meta).score := by
  refine ⟨by decide, ?_⟩
  rw [validateSEOCompliance_score_eq, validateSEOCompliance_score_eq]
  have hwB : contentWordCount c4BlocksBefore = 101 := by decide
  have hkB : contentKeywordCount c4BlocksBefore c4Kw = 2 := by decide
  have hwA : contentWordCount c4BlocksAfter = 102 := by decide
  have hkA : contentKeywordCount c4BlocksAfter c4Kw = 3 := by decide
  have hdB : condKeywordDensity c4BlocksBefore c4Kw = true := by
    simp only [condKeywordDensity, contentKeywordDensity, hwB, hkB]
    norm_num
  have hdA : condKeywordDensity c4BlocksAfter c4Kw = false := by
    simp only [condKeywordDensity, contentKeywordDensity, hwA, hkA]
    norm_num
  have m1 : condKeywordInTitle c4Kw c4Meta = false := by decide
  have m2 : condKeywordInMetaDescription c4Kw c4Meta = false := by decide
  have m3 : condKeywordInURL c4Kw c4Meta = false := by decide
  have m7 : condTitleReadability c4Meta = true := by decide
  have m9 : condMetaDescriptionLength c4Meta = false := by decide
  have p4B : condKeywordInFirst10Percent c4BlocksBefore c4Kw = false := by decide
  have p4A : condKeywordInFirst10Percent c4BlocksAfter c4Kw = false := by decide
  have p5B : condKeywordInContent c4BlocksBefore c4Kw = true := by decide
  have p5A : condKeywordInContent c4BlocksAfter c4Kw = true := by decide
  have p6B : condContentLength c4BlocksBefore = false := by decide
  have p6A : condContentLength c4BlocksAfter = false := by decide
  rw [m1, m2, m3, m7, m9, p4B, p4A, p5B, p5A, p6B, p6A, hdB, hdA]
  decide

/-- C4 as amended: for the canonical scorer, inserting the keyword into a
meta description that previously lacked it, or into an H1 that previously
lacked it, never decreases the score (the 10 or 15 points gained dominate
the at most 5 or 10 points the corresponding length rule can lose); the
body-content case of the original claim is dropped, defeated by the
keyword-density rule. -/
theorem seo_score_monotone_meta_and_title_insertion :
    (∀ (b : List ContentBlock) (kw h1 mt slug d1 d2 : List Char),
      jsIncludes (jsToLower (d1 ++ d2)) (jsToLower kw) = false →
      (validateSEOCompliance b kw ⟨h1, mt, d1 ++ d2, slug⟩).score ≤
        (validateSEOCompliance b kw ⟨h1, mt, d1 ++ (kw ++ d2), slug⟩).score) ∧
    (∀ (b : List ContentBlock) (kw a1 a2 mt md slug : List Char),
      jsIncludes (jsToLower (a1 ++ a2)) (jsToLower kw) = false →
      (validateSEOCompliance b kw ⟨a1 ++ a2, mt, md, slug⟩).score ≤
        (validateSEOCompliance b kw ⟨a1 ++ (kw ++ a2), mt, md, slug⟩).score) := by
  constructor
  · intro b kw h1 mt slug d1 d2 hmiss
    have hkw : kw ≠ [] := by
      intro hk
      rw [hk] at hmiss
      rw [show jsToLower [] = [] from rfl, jsIncludes_nil] at hmiss
      cases hmiss
    rw [validateSEOCompliance_score_eq, validateSEOCompliance_score_eq]
    have e1 : condKeywordInTitle kw ⟨h1, mt, d1 ++ (kw ++ d2), slug⟩ =
        condKeywordInTitle kw ⟨h1, mt, d1 ++ d2, slug⟩ := rfl
    have e3 : condKeywordInURL kw ⟨h1, mt, d1 ++ (kw ++ d2), slug⟩ =
        condKeywordInURL kw ⟨h1, mt, d1 ++ d2, slug⟩ := rfl
    have e7 : condTitleReadability (⟨h1, mt, d1 ++ (kw ++ d2), slug⟩ : MetaData) =
        condTitleReadability (⟨h1, mt, d1 ++ d2, slug⟩ : MetaData) := rfl
    have hc2 : condKeywordInMetaDescription kw ⟨h1, mt, d1 ++ d2, slug⟩ = false := by
      simp [condKeywordInMetaDescription, hmiss]
    have hc2' : condKeywordInMetaDescription kw ⟨h1, mt, d1 ++ (kw ++ d2), slug⟩ = true := by
      simp only [condKeywordInMetaDescription, Bool.and_eq_true]
      constructor
      · simp [hkw]
      · have : jsToLower (d1 ++ (kw ++ d2)) =
            jsToLower d1 ++ (jsToLower kw ++ jsToLower d2) := by
          simp [jsToLower]
        rw [this]
        exact jsIncludes_sandwich (jsToLower d1) (jsToLower kw) (jsToLower d2)
    have hA : (if condKeywordInMetaDescription kw ⟨h1, mt, d1 ++ d2, slug⟩
        then (10:ℕ) else 0) = 0 := by rw [hc2]; rfl
    have hB : (if condKeywordInMetaDescription kw ⟨h1, mt, d1 ++ (kw ++ d2), slug⟩
        then (10:ℕ) else 0) = 10 := by rw [hc2']; rfl
    rw [e1, e3, e7, hA, hB]
    have b9 : (if condMetaDescriptionLength ⟨h1, mt, d1 ++ d2, slug⟩ then 5 else 0) ≤ 5 := by
      split <;> omega
    have b9' : 0 ≤ (if condMetaDescriptionLength ⟨h1, mt, d1 ++ (kw ++ d2), slug⟩
        then 5 else 0) := Nat.zero_le _
    omega
  · intro b kw a1 a2 mt md slug hmiss
    have hkw : kw ≠ [] := by
      intro hk
      rw [hk] at hmiss
      rw [show jsToLower [] = [] from rfl, jsIncludes_nil] at hmiss
      cases hmiss
    rw [validateSEOCompliance_score_eq, validateSEOCompliance_score_eq]
    have e2 : condKeywordInMetaDescription kw ⟨a1 ++ (kw ++ a2), mt, md, slug⟩ =
        condKeywordInMetaDescription kw ⟨a1 ++ a2, mt, md, slug⟩ := rfl
    have e3 : condKeywordInURL kw ⟨a1 ++ (kw ++ a2), mt, md, slug⟩ =
        condKeywordInURL kw ⟨a1 ++ a2, mt, md, slug⟩ := rfl
    have e9 : condMetaDescriptionLength (⟨a1 ++ (kw ++ a2), mt, md, slug⟩ : MetaData) =
        condMetaDescriptionLength (⟨a1 ++ a2, mt, md, slug⟩ : MetaData) := rfl
    have hc1 : condKeywordInTitle kw ⟨a1 ++ a2, mt, md, slug⟩ = false := by
      simp [condKeywordInTitle, hmiss]
    have hc1' : condKeywordInTitle kw ⟨a1 ++ (kw ++ a2), mt, md, slug⟩ = true := by
      simp only [condKeywordInTitle, Bool.and_eq_true]
      constructor
      · simp [hkw]
      · have : jsToLower (a1 ++ (kw ++ a2)) =
            jsToLower a1 ++ (jsToLower kw ++ jsToLower a2) := by
          simp [jsToLower]
        rw [this]
        exact jsIncludes_sandwich (jsToLower a1) (jsToLower kw) (jsToLower a2)
    have hA : (if condKeywordInTitle kw ⟨a1 ++ a2, mt, md, slug⟩
        then (15:ℕ) else 0) = 0 := by rw [hc1]; rfl
    have hB : (if condKeywordInTitle kw ⟨a1 ++ (kw ++ a2), mt, md, slug⟩
        then (15:ℕ) else 0) = 15 := by rw [hc1']; rfl
    rw [e2, e3, e9, hA, hB]
    have b7 : (if condTitleReadability ⟨a1 ++ a2, mt, md, slug⟩ then 10 else 0) ≤ 10 := by
      split <;> omega
    have b7' : 0 ≤ (if condTitleReadability ⟨a1 ++ (kw ++ a2), mt, md, slug⟩
        then 10 else 0) := Nat.zero_le _
    omega

/-- Witness for the amended C4: both insertions applied at concrete tiny
inputs. -/
theorem seo_score_monotone_meta_and_title_insertion_witness :
    (jsIncludes (jsToLower ([] ++ ['d'])) (jsToLower ['q']) = false ∧
      (validateSEOCompliance [] ['q'] ⟨['t'], [], [] ++ ['d'], ['s']⟩).score ≤
        (validateSEOCompliance [] ['q'] ⟨['t'], [], [] ++ (['q'] ++ ['d']), ['s']⟩).score) ∧
    (jsIncludes (jsToLower ([] ++ ['t'])) (jsToLower ['q']) = false ∧
      (validateSEOCompliance [] ['q'] ⟨[] ++ ['t'], [], ['d'], ['s']⟩).score ≤
        (validateSEOCompliance [] ['q'] ⟨[] ++ (['q'] ++ ['t']), [], ['d'], ['s']⟩).score) :=
  ⟨⟨by decide, seo_score_monotone_meta_and_title_insertion.1 [] ['q'] ['t'] [] ['s'] [] ['d']
      (by decide)⟩,
   ⟨by decide, seo_score_monotone_meta_and_title_insertion.2 [] ['q'] [] ['t'] [] ['d'] ['s']
      (by decide)⟩⟩

/-! ## Claim C5 -/

/-- C5 counterexample: a deployment failure produced by `deployToWordPress`
carries `success := false` and a human-readable `error` string, but no
machine-readable `reason` field at all, contradicting the claimed
`\x7bsuccess:false, error, reason\x7d` shape. -/
theorem deployToWordPress_failure_has_no_reason_code :
    lookupField (deployToWordPress c5Draft "<p>body</p>" "company-1" c5DepsAuth) "reason"
      = none ∧
    lookupField (deployToWordPress c5Draft "<p>body</p>" "company-1" c5DepsAuth) "success"
      = some (.bool false) := ⟨rfl, rfl⟩

/-- C5 as amended: whenever configuration lookup fails, the HTTP call fails,
or WordPress answers with a status other than 201, `deployToWordPress`
returns the structured failure object `wpFailureObject msg timestamp
companyId`, i.e. `\x7bsuccess:false, error:msg,
details:\x7boriginalError, timestamp, companyId\x7d\x7d` for some message
`msg`; there is no `reason` field. -/
theorem deployToWordPress_failure_is_structured :
    ∀ (d : DraftData) (html companyId : String) (deps : DeployDeps),
    deployFailsB deps = true →
    ∃ msg, deployToWordPress d html companyId deps =
      wpFailureObject msg deps.timestamp companyId := by
  intro d html cid deps hf
  obtain ⟨cfg, call, ts⟩ := deps
  cases cfg with
  | error e => exact ⟨e, rfl⟩
  | ok c =>
    cases call with
    | error e =>
      obtain ⟨msg, hm⟩ := createWordPressPost_error_shape e (buildPostData d html) c
      exact ⟨msg, by simp [deployToWordPress, hm]⟩
    | ok r =>
      have hr : r.status ≠ 201 := by simpa [deployFailsB] using hf
      obtain ⟨msg, hm⟩ := wpStatusError_of_ne hr
      refine ⟨msg, ?_⟩
      simp [deployToWordPress, createWordPressPost, hm]

/-- Witness for the amended C5: the 403-response dependency bundle fails and
yields the structured failure object. -/
theorem deployToWordPress_failure_is_structured_witness :
    deployFailsB c5DepsForbidden = true ∧
    ∃ msg, deployToWordPress c5Draft "<p>body</p>" "company-1" c5DepsForbidden =
      wpFailureObject msg c5DepsForbidden.timestamp "company-1" :=
  ⟨rfl, deployToWordPress_failure_is_structured c5Draft "<p>body</p>" "company-1"
    c5DepsForbidden rfl⟩

/-! ## Claim C6 -/

/-- C6 counterexample: with the API key absent the fallback generator is not
a function of prompt and context alone: on the same body-paragraph prompt
and context, two different `Math.random` draws (0 and 9/10) select different
templates, so the produced content differs. -/
theorem generateHighQualityFallback_depends_on_random_draw :
    (generateHighQualityFallback c6Prompt c6Ctx 0).content ≠
    (generateHighQualityFallback c6Prompt c6Ctx (9/10)).content := by
  have h0 : jsRandomIndex 0 4 = 0 := by norm_num [jsRandomIndex]
  have h3 : jsRandomIndex (9/10) 4 = 3 := by norm_num [jsRandomIndex]; decide
  have hb1 : (jsIncludes (jsToLower c6Prompt.toList) ("meta title".toList)
      || jsIncludes (jsToLower c6Prompt.toList) ("metatitle".toList)) = false := by decide
  have hb2 : (jsIncludes (jsToLower c6Prompt.toList) ("meta description".toList)
      || jsIncludes (jsToLower c6Prompt.toList) ("metadescription".toList)) = false := by decide
  have hb3 : (jsIncludes (jsToLower c6Prompt.toList) ("h1".toList)
      || jsIncludes (jsToLower c6Prompt.toList) ("title".toList)
      || jsIncludes (jsToLower c6Prompt.toList) ("heading".toList)) = false := by decide
  simp only [generateHighQualityFallback, hb1, hb2, hb3, Bool.false_eq_true, if_false]
  have hlen : (getContentTemplates (jsOrStr c6Ctx.keyword (extractKeywordFromPrompt c6Prompt))
      (jsOrStr c6Ctx.name "WattMonk") c6Ctx).length = 4 := rfl
  rw [hlen, h0, h3]
  decide

/-- C6 as amended: the fallback generator is deterministic once the
`Math.random` draw is fixed: two draws that select the same index among the
four candidates (`⌊4r⌋ = ⌊4r2⌋`, as computed by `jsRandomIndex`) produce
identical results for every prompt and context. -/
theorem generateHighQualityFallback_deterministic_given_draw :
    ∀ (prompt : String) (ctx : CompanyContext) (r r2 : ℚ),
    jsRandomIndex r 4 = jsRandomIndex r2 4 →
    generateHighQualityFallback prompt ctx r = generateHighQualityFallback prompt ctx r2 := by
  intro p ctx r r2 h
  simp only [generateHighQualityFallback]
  have l1 : ∀ k : String, (h1Options k).length = 4 := fun _ => rfl
  have l2 : ∀ (k cn : String) (c : CompanyContext), (getContentTemplates k cn c).length = 4 :=
    fun _ _ _ => rfl
  split_ifs
  · rfl
  · rfl
  · rw [l1, h]
  · rw [l2, h]

/-- Witness for the amended C6: equal draws give equal results at a concrete
prompt and context. -/
theorem generateHighQualityFallback_deterministic_given_draw_witness :
    jsRandomIndex 0 4 = jsRandomIndex 0 4 ∧
    generateHighQualityFallback c6Prompt c6Ctx 0 = generateHighQualityFallback c6Prompt c6Ctx 0 :=
  ⟨rfl, generateHighQualityFallback_deterministic_given_draw c6Prompt c6Ctx 0 0 rfl⟩

/-! ## Claim C7 -/

/-- C7: when the Gemini response to the meta-optimisation prompt fails to
parse (`none`) the fallback result keeps the draft h1, metaTitle and
metaDescription verbatim, sets the slug to `generateSEOSlug(keyword)` and
fills placeholder placement/score strings; and when it parses, each field
falls back to the corresponding draft value when the parsed field is
missing. -/
theorem optimizeMetaData_fallback_preserves_drafts :
    ∀ (keyword h1 mt md : String) (kp es : Option String),
    optimizeMetaData keyword h1 mt md none =
      { h1 := h1, metaTitle := mt, metaDescription := md
        slug := generateSEOSlugStr keyword
        keywordPlacement := some "Standard placement"
        estimatedScore := some "Unable to estimate" } ∧
    optimizeMetaData keyword h1 mt md (some ⟨none, none, none, none, kp, es⟩) =
      { h1 := h1, metaTitle := mt, metaDescription := md
        slug := generateSEOSlugStr keyword
        keywordPlacement := kp, estimatedScore := es } :=
  fun _ _ _ _ _ _ => ⟨rfl, rfl⟩

/-! ## Claim C8 -/

/-- C8: with an API key configured, `generateContent` tries the four text
models in their declared order and returns the first successful result;
if all four attempts fail it returns the high-quality fallback instead of
propagating an error. -/
theorem generateContent_first_success_or_fallback :
    ∀ (attempt : String → Option String) (prompt : String)
    (ctx : CompanyContext) (rand : ℚ),
    generateContent attempt true prompt ctx rand =
      some (match textModels.findSome? attempt with
        | some t => mkGenResult t
        | none => generateHighQualityFallback prompt ctx rand) := by
  intro attempt prompt ctx rand
  simp only [generateContent, Bool.not_true, Bool.false_eq_true, if_false, textModels,
    tryTextModels, List.findSome?]
  cases h1 : attempt "gemini-2.0-flash-exp" with
  | some t => rfl
  | none =>
    cases h2 : attempt "gemini-1.5-pro-002" with
    | some t => rfl
    | none =>
      cases h3 : attempt "gemini-1.5-flash-002" with
      | some t => rfl
      | none =>
        cases h4 : attempt "gemini-pro" with
        | some t => rfl
        | none => rfl

/-! ## Claim C9 -/

/-- C9: `generateSEOSlug` is a pure deterministic function of its input
string, and on "Solar Panel Installation!" it produces
"solar-panel-installation" (lowercase, non-alphanumerics to hyphens,
runs collapsed, edges trimmed). -/
theorem generateSEOSlug_deterministic_and_example :
    (∀ s : String, generateSEOSlugStr s = generateSEOSlugStr s) ∧
    generateSEOSlugStr "Solar Panel Installation!" = "solar-panel-installation" :=
  ⟨fun _ => rfl, by decide⟩

/-! ## Claim C10 -/

/-- C10 counterexample: `generateSEOSlug` is not idempotent: on an input
whose 50-character truncation ends exactly at a hyphen, the first pass
leaves a trailing hyphen (substring runs before the edge trim), and the
second pass removes it, so slug(slug(s)) differs from slug(s). -/
theorem generateSEOSlug_not_idempotent_at_truncation :
    generateSEOSlugStr (generateSEOSlugStr c10Input) ≠ generateSEOSlugStr c10Input := by
  decide

/-- C10 as amended: applying `generateSEOSlug` a second time only strips
the edge hyphens that the 50-character truncation may leave behind:
slug(slug(s)) = stripEdgeHyphens(slug(s)) for every input, so the slug is
idempotent exactly when the first pass left no edge hyphen. -/
theorem generateSEOSlug_twice_strips_edge_hyphens :
    ∀ s : String,
    generateSEOSlugStr (generateSEOSlugStr s) = stripEdgeHyphensStr (generateSEOSlugStr s) := by
  intro s
  show (generateSEOSlug (generateSEOSlug s.toList)).asString
    = (stripEdgeHyphens (generateSEOSlug s.toList)).asString
  rw [generateSEOSlug_second]
